import Mathlib

/-!
# Wearable beacon firmware (`src/main.cpp`): mode cycle, scheduler and packet encoder

A shallow embedding of the firmware's globals and of the functions
`cycleEmergencyMode`, `transmitData` and `loop`, followed by theorems about them.

* Global variables become the fields of `Device`; every function is a pure
  function on `Device`.
* `unsigned long` values are naturals and the subtraction in the scheduler
  guard is reduced modulo `2 ^ 32` (`subUL`).
* `float` and `double` values are exact binary fractions (`Dyadic`); every
  conversion and every arithmetic operation rounds to the nearest
  representable value, ties to even, with 24 resp. 53 significant bits
  (`roundBinary`).
* `int` values are integers: the only `int` arithmetic is
  `vitalData.heartRate + hrVariation`, which stays far from the 32-bit limits.
* The results of `random`, `millis` and `digitalRead` are inputs of the model.
* `get_hr_risk_rating` comes from `model.h`; it is a parameter.
-/

namespace Wearable

/-! ## Binary floating point -/

/-- A finite binary floating-point value, `num / 2 ^ scale`. -/
structure Dyadic where
  num : Int
  scale : Nat
deriving DecidableEq, Repr

/-- The rational number a `Dyadic` stands for. -/
def Dyadic.toRat (x : Dyadic) : ℚ := (x.num : ℚ) / 2 ^ x.scale

/-- Nearest natural number to `a / d`; a tie goes to the even neighbour. -/
def divRoundEven (a d : Nat) : Nat :=
  let q := a / d
  let r := a % d
  if 2 * r < d then q
  else if d < 2 * r then q + 1
  else if q % 2 = 0 then q else q + 1

/-- Number of binary digits of `n`, by halving at most `fuel` times. -/
def bitLengthAux : Nat → Nat → Nat
  | 0, _ => 0
  | fuel + 1, n => if n = 0 then 0 else bitLengthAux fuel (n / 2) + 1

/-- Number of binary digits of `n` (`0` for `n = 0`). -/
def bitLength (n : Nat) : Nat := bitLengthAux n n

/-- IEEE 754 round-to-nearest-even of the rational `n / d` to a binary format
with `prec` significant bits whose smallest quantum is `2 ^ (-maxScale)`
(so subnormal results are rounded to that quantum). Overflow to infinity is
not modelled: the format's largest finite value is far above every value the
firmware computes. -/
def roundBinary (prec maxScale : Nat) (n : Int) (d : Nat) : Dyadic :=
  let a := n.natAbs
  if a = 0 ∨ d = 0 then ⟨0, 0⟩
  else
    let t : Int := (bitLength a : Int) - (bitLength d : Int)
    let k0 : Int := (prec : Int) - 1 - t
    let below : Bool :=
      if 0 ≤ k0 then decide (a * 2 ^ k0.toNat < 2 ^ (prec - 1) * d)
      else decide (a < 2 ^ (prec - 1) * (d * 2 ^ (-k0).toNat))
    let k1 : Int := if below then k0 + 1 else k0
    let k : Int := min k1 (maxScale : Int)
    if 0 ≤ k then
      ⟨Int.sign n * (divRoundEven (a * 2 ^ k.toNat) d : Int), k.toNat⟩
    else
      ⟨Int.sign n * ((divRoundEven a (d * 2 ^ (-k).toNat) * 2 ^ (-k).toNat : Nat) : Int), 0⟩

/-- Value of a decimal literal `n / d` of type `double`. -/
def doubleLit (n : Int) (d : Nat) : Dyadic := roundBinary 53 1074 n d

/-- Conversion of a `double` to `float` (assignment to a `float` variable). -/
def toFloat (x : Dyadic) : Dyadic := roundBinary 24 149 x.num (2 ^ x.scale)

/-- Product `g * c` of an integer (converted to `double`) and a `double`. -/
def mulIntDouble (g : Int) (c : Dyadic) : Dyadic :=
  roundBinary 53 1074 (g * c.num) (2 ^ c.scale)

/-- Sum of two `float` values, rounded to `float`. -/
def addFloat (x y : Dyadic) : Dyadic :=
  roundBinary 24 149 (x.num * 2 ^ y.scale + y.num * 2 ^ x.scale) (2 ^ (x.scale + y.scale))

/-! ## Text formatting (`snprintf`) -/

/-- The `k` lowest decimal digits of `n`, most significant first. -/
def fracDigits : Nat → Nat → List Char
  | 0, _ => []
  | k + 1, n => fracDigits k (n / 10) ++ [Nat.digitChar (n % 10)]

/-- Conversion `%d`: decimal digits, a minus sign only for negative values. -/
def formatInt (n : Int) : String :=
  if n < 0 then "-" ++ Nat.repr n.natAbs else Nat.repr n.natAbs

/-- Conversion `%.<places>f` of a finite value: the exact binary value is
rounded to `places` fractional digits (ties to even, as the C library's
correctly rounded conversion does) and written as integer part, point and
exactly `places` digits. -/
def formatFixed (places : Nat) (x : Dyadic) : String :=
  let scaled := divRoundEven (x.num.natAbs * 10 ^ places) (2 ^ x.scale)
  (if x.num < 0 then "-" else "") ++ Nat.repr (scaled / 10 ^ places) ++ "." ++
    String.mk (fracDigits places (scaled % 10 ^ places))

/-- Effect of `snprintf(buf, size, ...)` on the C string in `buf`: the rendered
text, cut to at most `size - 1` characters (one byte is kept for the
terminator). -/
def snprintf (size : Nat) (text : String) : String := String.mk (text.data.take (size - 1))

/-! ## Data model -/

/-- The four operating modes, in the order of the `enum`. -/
inductive EmergencyType where
  | VITALS_MODE
  | SOS_MODE
  | BACKUP_MODE
  | MEDICAL_MODE
deriving DecidableEq, Repr

open EmergencyType

/-- Integer value of an enumerator. -/
def EmergencyType.toNat : EmergencyType → Nat
  | VITALS_MODE => 0
  | SOS_MODE => 1
  | BACKUP_MODE => 2
  | MEDICAL_MODE => 3

/-- Cast `(EmergencyType) i` of an integer in the enumeration's range. -/
def EmergencyType.ofFin : Fin 4 → EmergencyType
  | ⟨0, _⟩ => VITALS_MODE
  | ⟨1, _⟩ => SOS_MODE
  | ⟨2, _⟩ => BACKUP_MODE
  | ⟨_ + 3, _⟩ => MEDICAL_MODE

/-- The global `vitalData`: the baseline sample. -/
structure VitalData where
  heartRate : Int
  latitude : Dyadic
  longitude : Dyadic
deriving DecidableEq, Repr

/-- Initial value of `vitalData`: `72`, `40.7128` and `-74.0060`, the two
coordinates being `double` literals stored in `float` fields. -/
def vitalDataInit : VitalData :=
  { heartRate := 72
    latitude := toFloat (doubleLit 407128 10000)
    longitude := toFloat (doubleLit (-740060) 10000) }

/-- One call on the radio driver. -/
inductive RadioOp where
  | beginPacket
  | print (payload : String)
  | endPacket
deriving DecidableEq, Repr

/-- The firmware's global variables, together with the text written to
`Serial` and the calls made on `Heltec.LoRa` so far. -/
structure Device where
  currentMode : EmergencyType
  lastTransmission : Nat
  lastTransmittedHR : Int
  lastTransmittedLat : Dyadic
  lastTransmittedLon : Dyadic
  lastRiskRating : Int
  vitalData : VitalData
  txpacket : String
  transmitting : Bool
  serial : List String
  radio : List RadioOp
deriving DecidableEq, Repr

/-- The globals as initialised at power-on, after `setup` has printed its banner. -/
def setup : Device :=
  { currentMode := VITALS_MODE
    lastTransmission := 0
    lastTransmittedHR := 0
    lastTransmittedLat := ⟨0, 0⟩
    lastTransmittedLon := ⟨0, 0⟩
    lastRiskRating := 0
    vitalData := vitalDataInit
    txpacket := ""
    transmitting := false
    serial := ["Transmitter Started\r\n", "Normal Mode: Sending vitals+GPS\r\n",
      "Press button to cycle modes\r\n"]
    radio := [] }

def txInterval : Nat := 3000

def BUFFER_SIZE : Nat := 128

/-- Subtraction `a - b` of two `unsigned long` values (32 bits on the target). -/
def subUL (a b : Nat) : Nat := (a % 2 ^ 32 + (2 ^ 32 - b % 2 ^ 32)) % 2 ^ 32

/-! ## Operations -/

/-- The line `cycleEmergencyMode` prints for the new mode. -/
def modeChangeLine : EmergencyType → String
  | VITALS_MODE => "Normal (Vitals+GPS)\r\n"
  | SOS_MODE => "SOS Emergency\r\n"
  | BACKUP_MODE => "Backup Request\r\n"
  | MEDICAL_MODE => "Medical Assistance\r\n"

/-- The expression `(EmergencyType)((currentMode + 1) % 4)`. -/
def nextMode (m : EmergencyType) : EmergencyType :=
  EmergencyType.ofFin ⟨(m.toNat + 1) % 4, Nat.mod_lt _ (by decide)⟩

/-- Function `cycleEmergencyMode`: `currentMode = (currentMode + 1) % 4`, then
the new mode is reported on `Serial`. -/
def cycleEmergencyMode (s : Device) : Device :=
  let next := nextMode s.currentMode
  { s with
    currentMode := next
    serial := s.serial ++ ["Mode changed to: ", modeChangeLine next] }

/-- The `switch` of `transmitData` that selects `emergencyMsg`; it has no case
for `VITALS_MODE`, which keeps the initial empty string. -/
def emergencyMsg : EmergencyType → String
  | VITALS_MODE => ""
  | SOS_MODE => "SOS_EMERGENCY"
  | BACKUP_MODE => "NEED_BACKUP"
  | MEDICAL_MODE => "MEDICAL_HELP"

/-- Expansion of the format `"VITALS:HR:%d,RISK:%d,GPS:%.6f,%.6f"`. -/
def formatVitals (hr risk : Int) (lat lon : Dyadic) : String :=
  "VITALS:HR:" ++ formatInt hr ++ ",RISK:" ++ formatInt risk ++ ",GPS:" ++
    formatFixed 6 lat ++ "," ++ formatFixed 6 lon

/-- The value of `gpsVariation` for the result `g` of `random(-10, 11)`:
`g * 0.0001` is a `double` product, stored in a `float`. -/
def gpsVariation (g : Int) : Dyadic := toFloat (mulIntDouble g (doubleLit 1 10000))

/-- Function `transmitData`. `r` is the result of `random(-3, 4)` and `g` the
result of `random(-10, 11)`. The buffer is cleared by `memset` and then holds
the C string `snprintf` writes. The flag `transmitting` is raised around the
three radio calls and is down again on return. -/
def transmitData (get_hr_risk_rating : Int → Int) (s : Device) (r g : Int) : Device :=
  if s.transmitting then s
  else
    let hrVariation := r
    let gpsVar := gpsVariation g
    let s1 : Device :=
      if s.currentMode = VITALS_MODE then
        let hr := s.vitalData.heartRate + hrVariation
        let lat := addFloat s.vitalData.latitude gpsVar
        let lon := addFloat s.vitalData.longitude gpsVar
        let risk := get_hr_risk_rating hr
        { s with
          lastTransmittedHR := hr
          lastTransmittedLat := lat
          lastTransmittedLon := lon
          lastRiskRating := risk
          txpacket := snprintf BUFFER_SIZE (formatVitals hr risk lat lon) }
      else
        { s with
          txpacket := snprintf BUFFER_SIZE ("EMERGENCY:" ++ emergencyMsg s.currentMode) }
    { s1 with
      transmitting := false
      serial := s1.serial ++ ["Transmitting: " ++ s1.txpacket ++ "\n", "TX complete\r\n"]
      radio := s1.radio ++ [RadioOp.beginPacket, RadioOp.print s1.txpacket, RadioOp.endPacket] }

/-- The transmission step of `loop`. `now` is the value of `millis()` read in
the guard, `after` the value of the second `millis()` call, made once
`transmitData` has returned. -/
def transmitStep (get_hr_risk_rating : Int → Int) (s : Device) (now after : Nat) (r g : Int) :
    Device :=
  if !s.transmitting && decide (txInterval ≤ subUL now s.lastTransmission) then
    { transmitData get_hr_risk_rating s r g with lastTransmission := after % 2 ^ 32 }
  else s

/-- Level read from the button pin; the button is active low. -/
inductive PinLevel where
  | LOW
  | HIGH
deriving DecidableEq, Repr

open PinLevel

/-- The loop `while(digitalRead(MENU_BUTTON_PIN) == LOW);` run on the coming
pin readings: the readings left once a `HIGH` has been read, `none` while all
readings seen so far are `LOW` (the loop is still spinning). -/
def waitForRelease : List PinLevel → Option (List PinLevel)
  | [] => none
  | LOW :: rest => waitForRelease rest
  | HIGH :: rest => some rest

/-- The button step of `loop`, run on the coming pin readings (the second one
is taken after `delay(50)`). The result is the new state and the readings not
consumed, or `none` if the readings end before the step does. -/
def buttonStep (s : Device) : List PinLevel → Option (Device × List PinLevel)
  | [] => none
  | HIGH :: rest => some (s, rest)
  | LOW :: [] => none
  | LOW :: HIGH :: rest => some (s, rest)
  | LOW :: LOW :: rest => (waitForRelease rest).map (fun left => (cycleEmergencyMode s, left))

/-- The globals at the point the button step has reached once the given pin
readings are consumed, whether or not the step has ended: the call of
`cycleEmergencyMode` is made as soon as the second reading is `LOW`, before
the wait for release, and the wait itself changes no variable. -/
def buttonStepState (s : Device) : List PinLevel → Device
  | [] => s
  | HIGH :: _ => s
  | LOW :: [] => s
  | LOW :: HIGH :: _ => s
  | LOW :: LOW :: _ => cycleEmergencyMode s

/-- One iteration of `loop`: button step, then transmission step. The display
refresh and the final `delay(100)` change no variable. -/
def loop (get_hr_risk_rating : Int → Int) (s : Device) (pin : List PinLevel) (now after : Nat)
    (r g : Int) : Option (Device × List PinLevel) :=
  (buttonStep s pin).map
    (fun p => (transmitStep get_hr_risk_rating p.1 now after r g, p.2))

/-- Number of mode changes reported on `Serial` so far. -/
def modeChanges (s : Device) : Nat := s.serial.count "Mode changed to: "

/-- Number of complete packets handed to the radio so far. -/
def packetsSent (s : Device) : Nat := s.radio.count RadioOp.endPacket

/-! ## Basic facts about the operations -/

theorem subUL_lt (a b : Nat) : subUL a b < 2 ^ 32 := by
  unfold subUL
  exact Nat.mod_lt _ (by norm_num)

theorem subUL_eq_emod (a b : Nat) : (subUL a b : Int) = ((a : Int) - (b : Int)) % 2 ^ 32 := by
  unfold subUL
  omega

theorem transmitData_of_transmitting (f : Int → Int) (s : Device) (r g : Int)
    (h : s.transmitting = true) : transmitData f s r g = s := by
  simp [transmitData, h]

theorem transmitData_vitals (f : Int → Int) (s : Device) (r g : Int)
    (ht : s.transmitting = false) (hm : s.currentMode = VITALS_MODE) :
    transmitData f s r g =
      { s with
        lastTransmittedHR := s.vitalData.heartRate + r
        lastTransmittedLat := addFloat s.vitalData.latitude (gpsVariation g)
        lastTransmittedLon := addFloat s.vitalData.longitude (gpsVariation g)
        lastRiskRating := f (s.vitalData.heartRate + r)
        txpacket := snprintf BUFFER_SIZE
          (formatVitals (s.vitalData.heartRate + r) (f (s.vitalData.heartRate + r))
            (addFloat s.vitalData.latitude (gpsVariation g))
            (addFloat s.vitalData.longitude (gpsVariation g)))
        transmitting := false
        serial := s.serial ++
          ["Transmitting: " ++ snprintf BUFFER_SIZE
            (formatVitals (s.vitalData.heartRate + r) (f (s.vitalData.heartRate + r))
              (addFloat s.vitalData.latitude (gpsVariation g))
              (addFloat s.vitalData.longitude (gpsVariation g))) ++ "\n", "TX complete\r\n"]
        radio := s.radio ++
          [RadioOp.beginPacket, RadioOp.print (snprintf BUFFER_SIZE
            (formatVitals (s.vitalData.heartRate + r) (f (s.vitalData.heartRate + r))
              (addFloat s.vitalData.latitude (gpsVariation g))
              (addFloat s.vitalData.longitude (gpsVariation g)))), RadioOp.endPacket] } := by
  simp [transmitData, ht, hm]

theorem transmitData_emergency (f : Int → Int) (s : Device) (r g : Int)
    (ht : s.transmitting = false) (hm : s.currentMode ≠ VITALS_MODE) :
    transmitData f s r g =
      { s with
        txpacket := snprintf BUFFER_SIZE ("EMERGENCY:" ++ emergencyMsg s.currentMode)
        transmitting := false
        serial := s.serial ++
          ["Transmitting: " ++ snprintf BUFFER_SIZE ("EMERGENCY:" ++ emergencyMsg s.currentMode)
            ++ "\n", "TX complete\r\n"]
        radio := s.radio ++
          [RadioOp.beginPacket,
            RadioOp.print (snprintf BUFFER_SIZE ("EMERGENCY:" ++ emergencyMsg s.currentMode)),
            RadioOp.endPacket] } := by
  simp [transmitData, ht, hm]

theorem transmitData_radio (f : Int → Int) (s : Device) (r g : Int)
    (h : s.transmitting = false) :
    (transmitData f s r g).radio =
      s.radio ++ [RadioOp.beginPacket, RadioOp.print (transmitData f s r g).txpacket,
        RadioOp.endPacket] := by
  unfold transmitData
  by_cases hm : s.currentMode = VITALS_MODE <;> simp [h, hm]

theorem transmitData_transmitting (f : Int → Int) (s : Device) (r g : Int) :
    (transmitData f s r g).transmitting = s.transmitting := by
  unfold transmitData
  cases h : s.transmitting <;> simp [h]

theorem transmitData_vitalData (f : Int → Int) (s : Device) (r g : Int) :
    (transmitData f s r g).vitalData = s.vitalData := by
  unfold transmitData
  by_cases hm : s.currentMode = VITALS_MODE <;> cases h : s.transmitting <;> simp [hm]

theorem transmitData_currentMode (f : Int → Int) (s : Device) (r g : Int) :
    (transmitData f s r g).currentMode = s.currentMode := by
  unfold transmitData
  by_cases hm : s.currentMode = VITALS_MODE <;> cases h : s.transmitting <;> simp [hm]

theorem packetsSent_transmitData (f : Int → Int) (s : Device) (r g : Int)
    (h : s.transmitting = false) :
    packetsSent (transmitData f s r g) = packetsSent s + 1 := by
  unfold packetsSent
  rw [transmitData_radio f s r g h]
  simp [List.count_append, List.count_cons]

theorem transmitStep_of_due (f : Int → Int) (s : Device) (now after : Nat) (r g : Int)
    (ht : s.transmitting = false) (hd : txInterval ≤ subUL now s.lastTransmission) :
    transmitStep f s now after r g =
      { transmitData f s r g with lastTransmission := after % 2 ^ 32 } := by
  simp [transmitStep, ht, hd]

theorem transmitStep_of_not_due (f : Int → Int) (s : Device) (now after : Nat) (r g : Int)
    (h : ¬ (s.transmitting = false ∧ txInterval ≤ subUL now s.lastTransmission)) :
    transmitStep f s now after r g = s := by
  unfold transmitStep
  cases ht : s.transmitting
  · have hd : ¬ txInterval ≤ subUL now s.lastTransmission := fun hd => h ⟨ht, hd⟩
    simp [hd]
  · simp

theorem cycleEmergencyMode_currentMode (s : Device) :
    (cycleEmergencyMode s).currentMode = nextMode s.currentMode := rfl

theorem modeChanges_cycleEmergencyMode (s : Device) :
    modeChanges (cycleEmergencyMode s) = modeChanges s + 1 := by
  have h : ∀ m : EmergencyType, modeChangeLine m ≠ "Mode changed to: " := by
    intro m
    cases m <;> decide
  simp [modeChanges, cycleEmergencyMode, List.count_append, List.count_cons, h]

theorem waitForRelease_replicate (k : Nat) (rest : List PinLevel) :
    waitForRelease (List.replicate k LOW ++ HIGH :: rest) = some rest := by
  induction k with
  | zero => rfl
  | succ k ih => simpa [List.replicate_succ, waitForRelease] using ih

theorem waitForRelease_all_low (k : Nat) : waitForRelease (List.replicate k LOW) = none := by
  induction k with
  | zero => rfl
  | succ k ih => simpa [List.replicate_succ, waitForRelease] using ih

/-! ## The claims -/

/-- C1: the transmission step of `loop` calls `transmitData` (one more packet is
handed to the radio) if and only if `transmitting` is false and
`millis() - lastTransmission`, an `unsigned long` difference taken modulo
`2 ^ 32`, is at least 3000. When it fires the state is that of `transmitData`
with the second `millis()` reading stored; otherwise, and in particular when
the difference is below 3000, nothing changes. -/
theorem transmitStep_fires_iff (f : Int → Int) (s : Device) (now after : Nat) (r g : Int) :
    (packetsSent (transmitStep f s now after r g) = packetsSent s + 1 ↔
      (s.transmitting = false ∧ 3000 ≤ subUL now s.lastTransmission)) ∧
    ((s.transmitting = false ∧ 3000 ≤ subUL now s.lastTransmission) →
      transmitStep f s now after r g =
        { transmitData f s r g with lastTransmission := after % 2 ^ 32 }) ∧
    (¬ (s.transmitting = false ∧ 3000 ≤ subUL now s.lastTransmission) →
      transmitStep f s now after r g = s) ∧
    (subUL now s.lastTransmission < 3000 → transmitStep f s now after r g = s) ∧
    (subUL now s.lastTransmission : Int) = ((now : Int) - (s.lastTransmission : Int)) % 2 ^ 32 := by
  refine ⟨?_, ?_, ?_, ?_, subUL_eq_emod _ _⟩
  · constructor
    · intro h
      by_contra hc
      rw [transmitStep_of_not_due f s now after r g hc] at h
      omega
    · rintro ⟨ht, hd⟩
      rw [transmitStep_of_due f s now after r g ht hd]
      exact packetsSent_transmitData f s r g ht
  · rintro ⟨ht, hd⟩
    exact transmitStep_of_due f s now after r g ht hd
  · intro hc
    exact transmitStep_of_not_due f s now after r g hc
  · intro hlt
    apply transmitStep_of_not_due
    rintro ⟨_, hd⟩
    have : txInterval = 3000 := rfl
    omega

/-- C1, at the state after `setup` with the clock at 3000 ms: the step fires. -/
theorem transmitStep_fires_iff_witness :
    packetsSent (transmitStep (fun _ => 0) setup 3000 3100 0 0) = packetsSent setup + 1 :=
  (transmitStep_fires_iff (fun _ => 0) setup 3000 3100 0 0).1.2 ⟨rfl, by decide⟩

/-- C2: in each emergency mode `transmitData` leaves in `txpacket`, and hands to
the radio, exactly the fixed text of that mode, whatever the two random
values, the risk function and the previous contents of the variables. -/
theorem emergency_payload_fixed (f : Int → Int) (s : Device) (r g : Int)
    (h : s.transmitting = false) :
    (s.currentMode = SOS_MODE →
      (transmitData f s r g).txpacket = "EMERGENCY:SOS_EMERGENCY") ∧
    (s.currentMode = BACKUP_MODE →
      (transmitData f s r g).txpacket = "EMERGENCY:NEED_BACKUP") ∧
    (s.currentMode = MEDICAL_MODE →
      (transmitData f s r g).txpacket = "EMERGENCY:MEDICAL_HELP") ∧
    (transmitData f s r g).radio =
      s.radio ++ [RadioOp.beginPacket, RadioOp.print (transmitData f s r g).txpacket,
        RadioOp.endPacket] := by
  refine ⟨?_, ?_, ?_, transmitData_radio f s r g h⟩
  · intro hm
    rw [transmitData_emergency f s r g h (by rw [hm]; decide), hm]
    exact (by decide :
      snprintf BUFFER_SIZE ("EMERGENCY:" ++ emergencyMsg SOS_MODE) = "EMERGENCY:SOS_EMERGENCY")
  · intro hm
    rw [transmitData_emergency f s r g h (by rw [hm]; decide), hm]
    exact (by decide :
      snprintf BUFFER_SIZE ("EMERGENCY:" ++ emergencyMsg BACKUP_MODE) = "EMERGENCY:NEED_BACKUP")
  · intro hm
    rw [transmitData_emergency f s r g h (by rw [hm]; decide), hm]
    exact (by decide :
      snprintf BUFFER_SIZE ("EMERGENCY:" ++ emergencyMsg MEDICAL_MODE) = "EMERGENCY:MEDICAL_HELP")

/-- C2, at the state after `setup` switched to SOS mode. -/
theorem emergency_payload_fixed_witness :
    (transmitData (fun _ => 0) { setup with currentMode := SOS_MODE } 2 (-7)).txpacket =
      "EMERGENCY:SOS_EMERGENCY" :=
  (emergency_payload_fixed (fun _ => 0) { setup with currentMode := SOS_MODE } 2 (-7) rfl).1 rfl

/-- C4: `cycleEmergencyMode` sets the mode to `(mode + 1) mod 4`, that is
Vitals to SOS, SOS to Backup, Backup to Medical and Medical to Vitals. It is
defined on every state, the new mode is one of the four, and apart from the
text reported on `Serial` no other variable changes. -/
theorem cycleEmergencyMode_next (s : Device) :
    (cycleEmergencyMode s).currentMode.toNat = (s.currentMode.toNat + 1) % 4 ∧
    (cycleEmergencyMode { s with currentMode := VITALS_MODE }).currentMode = SOS_MODE ∧
    (cycleEmergencyMode { s with currentMode := SOS_MODE }).currentMode = BACKUP_MODE ∧
    (cycleEmergencyMode { s with currentMode := BACKUP_MODE }).currentMode = MEDICAL_MODE ∧
    (cycleEmergencyMode { s with currentMode := MEDICAL_MODE }).currentMode = VITALS_MODE ∧
    (cycleEmergencyMode s).currentMode ∈ [VITALS_MODE, SOS_MODE, BACKUP_MODE, MEDICAL_MODE] ∧
    cycleEmergencyMode s =
      { s with
        currentMode := (cycleEmergencyMode s).currentMode
        serial := s.serial ++
          ["Mode changed to: ", modeChangeLine (cycleEmergencyMode s).currentMode] } := by
  refine ⟨?_, ?_, ?_, ?_, ?_, ?_, rfl⟩
  · rw [cycleEmergencyMode_currentMode]
    cases s.currentMode <;> decide
  · rw [cycleEmergencyMode_currentMode]
    exact (by decide : nextMode VITALS_MODE = SOS_MODE)
  · rw [cycleEmergencyMode_currentMode]
    exact (by decide : nextMode SOS_MODE = BACKUP_MODE)
  · rw [cycleEmergencyMode_currentMode]
    exact (by decide : nextMode BACKUP_MODE = MEDICAL_MODE)
  · rw [cycleEmergencyMode_currentMode]
    exact (by decide : nextMode MEDICAL_MODE = VITALS_MODE)
  · rw [cycleEmergencyMode_currentMode]
    cases s.currentMode <;> decide

/-- C5: four calls of `cycleEmergencyMode` bring the mode back to where it
started, and one, two or three calls never do: the transition is a cycle of
order exactly 4. -/
theorem cycleEmergencyMode_order_four (s : Device) :
    (cycleEmergencyMode^[4] s).currentMode = s.currentMode ∧
    (cycleEmergencyMode^[1] s).currentMode ≠ s.currentMode ∧
    (cycleEmergencyMode^[2] s).currentMode ≠ s.currentMode ∧
    (cycleEmergencyMode^[3] s).currentMode ≠ s.currentMode := by
  simp only [Function.iterate_succ, Function.iterate_zero, Function.comp_apply, id_eq,
    cycleEmergencyMode_currentMode]
  cases s.currentMode <;> decide

theorem nextMode_toNat (m : EmergencyType) : (nextMode m).toNat = (m.toNat + 1) % 4 := by
  cases m <;> decide

theorem nextMode_ne (m : EmergencyType) : nextMode m ≠ m := by
  cases m <;> decide

theorem transmitStep_currentMode (f : Int → Int) (s : Device) (now after : Nat) (r g : Int) :
    (transmitStep f s now after r g).currentMode = s.currentMode := by
  unfold transmitStep
  split_ifs
  · exact transmitData_currentMode f s r g
  · rfl

/-- C10: in one `loop` iteration, a pin that reads LOW at the first reading
and at the reading after the debounce delay advances the mode exactly once,
however many further readings stay LOW: the mode after the step, and after the
whole iteration, has enum value `(old + 1) mod 4` and differs from the old
mode, and exactly one mode change is reported. The step ends only with the
first HIGH reading; while all readings are LOW it has not ended, and the
globals then already hold the mode advanced once, whatever the length of the
hold. A pin that reads HIGH at the first or at the second reading leaves the
mode as it was. -/
theorem buttonStep_debounce (f : Int → Int) (s : Device) (k : Nat) (rest : List PinLevel)
    (now after : Nat) (r g : Int) :
    buttonStep s (LOW :: LOW :: (List.replicate k LOW ++ HIGH :: rest)) =
      some (cycleEmergencyMode s, rest) ∧
    modeChanges (cycleEmergencyMode s) = modeChanges s + 1 ∧
    buttonStep s (LOW :: LOW :: List.replicate k LOW) = none ∧
    buttonStep s (HIGH :: rest) = some (s, rest) ∧
    buttonStep s (LOW :: HIGH :: rest) = some (s, rest) ∧
    loop f s (LOW :: LOW :: (List.replicate k LOW ++ HIGH :: rest)) now after r g =
      some (transmitStep f (cycleEmergencyMode s) now after r g, rest) ∧
    loop f s (LOW :: LOW :: List.replicate k LOW) now after r g = none ∧
    loop f s (HIGH :: rest) now after r g = some (transmitStep f s now after r g, rest) ∧
    loop f s (LOW :: HIGH :: rest) now after r g =
      some (transmitStep f s now after r g, rest) ∧
    (buttonStep s (LOW :: LOW :: (List.replicate k LOW ++ HIGH :: rest))).map
      (fun p => p.1.currentMode.toNat) = some ((s.currentMode.toNat + 1) % 4) ∧
    (buttonStep s (LOW :: LOW :: (List.replicate k LOW ++ HIGH :: rest))).map
      (fun p => decide (p.1.currentMode = s.currentMode)) = some false ∧
    (loop f s (LOW :: LOW :: (List.replicate k LOW ++ HIGH :: rest)) now after r g).map
      (fun p => p.1.currentMode.toNat) = some ((s.currentMode.toNat + 1) % 4) ∧
    (loop f s (LOW :: LOW :: (List.replicate k LOW ++ HIGH :: rest)) now after r g).map
      (fun p => decide (p.1.currentMode = s.currentMode)) = some false ∧
    (cycleEmergencyMode s).currentMode.toNat = (s.currentMode.toNat + 1) % 4 ∧
    (cycleEmergencyMode s).currentMode ≠ s.currentMode ∧
    (loop f s (HIGH :: rest) now after r g).map (fun p => p.1.currentMode) =
      some s.currentMode ∧
    (loop f s (LOW :: HIGH :: rest) now after r g).map (fun p => p.1.currentMode) =
      some s.currentMode ∧
    (buttonStepState s (LOW :: LOW :: List.replicate k LOW)).currentMode.toNat =
      (s.currentMode.toNat + 1) % 4 ∧
    modeChanges (buttonStepState s (LOW :: LOW :: List.replicate k LOW)) = modeChanges s + 1 ∧
    (buttonStepState s (LOW :: LOW :: (List.replicate k LOW ++ HIGH :: rest))).currentMode.toNat =
      (s.currentMode.toNat + 1) % 4 ∧
    buttonStepState s (HIGH :: rest) = s ∧
    buttonStepState s (LOW :: HIGH :: rest) = s := by
  have h1 : buttonStep s (LOW :: LOW :: (List.replicate k LOW ++ HIGH :: rest)) =
      some (cycleEmergencyMode s, rest) := by
    simp [buttonStep, waitForRelease_replicate]
  have h2 : buttonStep s (LOW :: LOW :: List.replicate k LOW) = none := by
    simp [buttonStep, waitForRelease_all_low]
  have l1 : loop f s (LOW :: LOW :: (List.replicate k LOW ++ HIGH :: rest)) now after r g =
      some (transmitStep f (cycleEmergencyMode s) now after r g, rest) := by
    simp [loop, h1]
  have l2 : loop f s (LOW :: LOW :: List.replicate k LOW) now after r g = none := by
    simp [loop, h2]
  have l3 : loop f s (HIGH :: rest) now after r g =
      some (transmitStep f s now after r g, rest) := rfl
  have l4 : loop f s (LOW :: HIGH :: rest) now after r g =
      some (transmitStep f s now after r g, rest) := rfl
  have m1 : (cycleEmergencyMode s).currentMode.toNat = (s.currentMode.toNat + 1) % 4 := by
    rw [cycleEmergencyMode_currentMode]
    exact nextMode_toNat s.currentMode
  have m2 : (cycleEmergencyMode s).currentMode ≠ s.currentMode := by
    rw [cycleEmergencyMode_currentMode]
    exact nextMode_ne s.currentMode
  refine ⟨h1, modeChanges_cycleEmergencyMode s, h2, rfl, rfl, l1, l2, l3, l4, ?_, ?_, ?_, ?_,
    m1, m2, ?_, ?_, m1, modeChanges_cycleEmergencyMode s, m1, rfl, rfl⟩
  · rw [h1]
    exact congrArg some m1
  · rw [h1]
    simp [m2]
  · rw [l1]
    simp only [Option.map_some', transmitStep_currentMode]
    exact congrArg some m1
  · rw [l1]
    simp [transmitStep_currentMode, m2]
  · rw [l3]
    simp [transmitStep_currentMode]
  · rw [l4]
    simp [transmitStep_currentMode]

/-- C6 as stated fails. After `setup`, a tick whose guard reads 3000 fires; the
send returns at 3001 and that second reading is stored. The next tick reads
6000, which is 3000 after the first guard reading, and does not fire. -/
theorem two_ticks_counterexample :
    (setup.transmitting = false ∧ 3000 ≤ subUL 3000 setup.lastTransmission) ∧
    3000 ≤ subUL 6000 3000 ∧
    packetsSent (transmitStep (fun _ => 0) setup 3000 3001 0 0) = packetsSent setup + 1 ∧
    (transmitStep (fun _ => 0) setup 3000 3001 0 0).lastTransmission = 3001 ∧
    transmitStep (fun _ => 0) (transmitStep (fun _ => 0) setup 3000 3001 0 0) 6000 6001 0 0 =
      transmitStep (fun _ => 0) setup 3000 3001 0 0 ∧
    packetsSent
        (transmitStep (fun _ => 0) (transmitStep (fun _ => 0) setup 3000 3001 0 0)
          6000 6001 0 0) ≠
      packetsSent (transmitStep (fun _ => 0) setup 3000 3001 0 0) + 1 := by
  decide

set_option maxRecDepth 8000 in
/-- C7 as stated fails. A Vitals transmission (heart rate 75) followed by a
change to SOS mode and an SOS transmission drawn with jitter -3 and -10
leaves the four numeric fields at the values of the Vitals transmission; only
the payload buffer is overwritten. -/
theorem record_overwritten_counterexample :
    (cycleEmergencyMode (transmitData (fun hr => hr - 70) setup 3 10)).currentMode = SOS_MODE ∧
    (transmitData (fun hr => hr - 70)
        (cycleEmergencyMode (transmitData (fun hr => hr - 70) setup 3 10))
        (-3) (-10)).txpacket = "EMERGENCY:SOS_EMERGENCY" ∧
    (transmitData (fun hr => hr - 70)
        (cycleEmergencyMode (transmitData (fun hr => hr - 70) setup 3 10))
        (-3) (-10)).lastTransmittedHR = 75 ∧
    (transmitData (fun hr => hr - 70)
        (cycleEmergencyMode (transmitData (fun hr => hr - 70) setup 3 10))
        (-3) (-10)).lastTransmittedHR ≠ 72 + (-3) ∧
    (transmitData (fun hr => hr - 70)
        (cycleEmergencyMode (transmitData (fun hr => hr - 70) setup 3 10))
        (-3) (-10)).lastRiskRating = 5 ∧
    (transmitData (fun hr => hr - 70)
        (cycleEmergencyMode (transmitData (fun hr => hr - 70) setup 3 10))
        (-3) (-10)).lastTransmittedLat =
      (transmitData (fun hr => hr - 70) setup 3 10).lastTransmittedLat ∧
    (transmitData (fun hr => hr - 70)
        (cycleEmergencyMode (transmitData (fun hr => hr - 70) setup 3 10))
        (-3) (-10)).lastTransmittedLat ≠
      addFloat vitalDataInit.latitude (gpsVariation (-10)) ∧
    (transmitData (fun hr => hr - 70)
        (cycleEmergencyMode (transmitData (fun hr => hr - 70) setup 3 10))
        (-3) (-10)).lastTransmittedLon ≠
      addFloat vitalDataInit.longitude (gpsVariation (-10)) := by
  decide

/-- C3 as stated fails. With no jitter and risk 0 the payload built from the
baseline is not the text with `40.712800` and `-74.006000`: the two `float`
fields hold `40.712799072265625` and `-74.00599670410156`. -/
theorem vitals_reference_payload_counterexample :
    (transmitData (fun _ => 0) setup 0 0).lastTransmittedHR = 72 ∧
    (transmitData (fun _ => 0) setup 0 0).lastRiskRating = 0 ∧
    (transmitData (fun _ => 0) setup 0 0).lastTransmittedLat = toFloat (doubleLit 407128 10000) ∧
    (transmitData (fun _ => 0) setup 0 0).lastTransmittedLon =
      toFloat (doubleLit (-740060) 10000) ∧
    (transmitData (fun _ => 0) setup 0 0).txpacket ≠
      "VITALS:HR:72,RISK:0,GPS:40.712800,-74.006000" ∧
    formatVitals 72 0 (toFloat (doubleLit 407128 10000)) (toFloat (doubleLit (-740060) 10000)) ≠
      "VITALS:HR:72,RISK:0,GPS:40.712800,-74.006000" := by
  decide

theorem subUL_mod_right (a b : Nat) : subUL a (b % 2 ^ 32) = subUL a b := by
  simp [subUL]

theorem iterate_cycleEmergencyMode_frame (k : Nat) (s : Device) :
    (cycleEmergencyMode^[k] s).transmitting = s.transmitting ∧
    (cycleEmergencyMode^[k] s).lastTransmission = s.lastTransmission ∧
    (cycleEmergencyMode^[k] s).radio = s.radio := by
  induction k generalizing s with
  | zero => exact ⟨rfl, rfl, rfl⟩
  | succ k ih =>
    rw [Function.iterate_succ_apply]
    exact ih (cycleEmergencyMode s)

/-- C6, amended: if the first tick is due and the second tick's guard reads a
clock value at least 3000 (modulo `2 ^ 32`) after the second `millis()` reading
of the first tick, the one stored in `lastTransmission`, then each of the two
ticks hands exactly one `beginPacket`, `print`, `endPacket` sequence to the
radio, whatever the mode and however often the mode is changed in between.
The fired tick leaves `transmitting` false and stores that second reading. -/
theorem two_ticks_each_send_once (f : Int → Int) (s : Device) (now1 after1 now2 after2 : Nat)
    (r1 g1 r2 g2 : Int) (k : Nat) (ht : s.transmitting = false)
    (h1 : 3000 ≤ subUL now1 s.lastTransmission) (h2 : 3000 ≤ subUL now2 after1) :
    (transmitStep f s now1 after1 r1 g1).radio =
      s.radio ++ [RadioOp.beginPacket,
        RadioOp.print (transmitStep f s now1 after1 r1 g1).txpacket, RadioOp.endPacket] ∧
    (transmitStep f s now1 after1 r1 g1).transmitting = false ∧
    (transmitStep f s now1 after1 r1 g1).lastTransmission = after1 % 2 ^ 32 ∧
    (transmitStep f (cycleEmergencyMode^[k] (transmitStep f s now1 after1 r1 g1))
        now2 after2 r2 g2).radio =
      (transmitStep f s now1 after1 r1 g1).radio ++ [RadioOp.beginPacket,
        RadioOp.print (transmitStep f (cycleEmergencyMode^[k] (transmitStep f s now1 after1 r1 g1))
          now2 after2 r2 g2).txpacket, RadioOp.endPacket] ∧
    packetsSent (transmitStep f s now1 after1 r1 g1) = packetsSent s + 1 ∧
    packetsSent (transmitStep f (cycleEmergencyMode^[k] (transmitStep f s now1 after1 r1 g1))
        now2 after2 r2 g2) = packetsSent (transmitStep f s now1 after1 r1 g1) + 1 := by
  have e1 := transmitStep_of_due f s now1 after1 r1 g1 ht h1
  have t1 : (transmitStep f s now1 after1 r1 g1).transmitting = false := by
    rw [e1]
    exact (transmitData_transmitting f s r1 g1).trans ht
  have l1 : (transmitStep f s now1 after1 r1 g1).lastTransmission = after1 % 2 ^ 32 := by
    rw [e1]
  have rad1 : (transmitStep f s now1 after1 r1 g1).radio =
      s.radio ++ [RadioOp.beginPacket,
        RadioOp.print (transmitStep f s now1 after1 r1 g1).txpacket, RadioOp.endPacket] := by
    rw [e1]
    exact transmitData_radio f s r1 g1 ht
  obtain ⟨ft, fl, fr⟩ := iterate_cycleEmergencyMode_frame k (transmitStep f s now1 after1 r1 g1)
  have t2 : (cycleEmergencyMode^[k] (transmitStep f s now1 after1 r1 g1)).transmitting = false :=
    ft.trans t1
  have d2 : txInterval ≤
      subUL now2 (cycleEmergencyMode^[k] (transmitStep f s now1 after1 r1 g1)).lastTransmission := by
    rw [fl, l1, subUL_mod_right]
    exact h2
  have e2 := transmitStep_of_due f _ now2 after2 r2 g2 t2 d2
  have rad2 : (transmitStep f (cycleEmergencyMode^[k] (transmitStep f s now1 after1 r1 g1))
        now2 after2 r2 g2).radio =
      (transmitStep f s now1 after1 r1 g1).radio ++ [RadioOp.beginPacket,
        RadioOp.print (transmitStep f (cycleEmergencyMode^[k] (transmitStep f s now1 after1 r1 g1))
          now2 after2 r2 g2).txpacket, RadioOp.endPacket] := by
    rw [e2, ← fr]
    exact transmitData_radio f _ r2 g2 t2
  refine ⟨rad1, t1, l1, rad2, ?_, ?_⟩
  · unfold packetsSent
    rw [rad1]
    simp [List.count_append, List.count_cons]
  · unfold packetsSent
    rw [rad2]
    simp [List.count_append, List.count_cons]

/-- C6, amended, at the state after `setup`: guard readings 3000 and 6001, the
first send returning at 3001, one press of the button in between. -/
theorem two_ticks_each_send_once_witness :
    packetsSent (transmitStep (fun _ => 0) setup 3000 3001 0 0) = packetsSent setup + 1 ∧
    packetsSent (transmitStep (fun _ => 0)
        (cycleEmergencyMode^[1] (transmitStep (fun _ => 0) setup 3000 3001 0 0))
        6001 6002 1 1) = packetsSent (transmitStep (fun _ => 0) setup 3000 3001 0 0) + 1 :=
  (two_ticks_each_send_once (fun _ => 0) setup 3000 3001 6001 6002 0 0 1 1 1 rfl
    (by decide) (by decide)).2.2.2.2

/-- C7, amended: a transmission in Vitals mode overwrites `lastTransmittedHR`,
`lastRiskRating`, `lastTransmittedLat`, `lastTransmittedLon` and the payload
buffer with the values of that transmission; a transmission in an emergency
mode overwrites the payload buffer only and leaves the four numeric fields
as they were. In every mode the packet handed to the radio is the new buffer. -/
theorem transmitData_record (f : Int → Int) (s : Device) (r g : Int)
    (ht : s.transmitting = false) :
    (s.currentMode = VITALS_MODE →
      (transmitData f s r g).lastTransmittedHR = s.vitalData.heartRate + r ∧
      (transmitData f s r g).lastRiskRating = f (s.vitalData.heartRate + r) ∧
      (transmitData f s r g).lastTransmittedLat =
        addFloat s.vitalData.latitude (gpsVariation g) ∧
      (transmitData f s r g).lastTransmittedLon =
        addFloat s.vitalData.longitude (gpsVariation g) ∧
      (transmitData f s r g).txpacket =
        snprintf BUFFER_SIZE
          (formatVitals (s.vitalData.heartRate + r) (f (s.vitalData.heartRate + r))
            (addFloat s.vitalData.latitude (gpsVariation g))
            (addFloat s.vitalData.longitude (gpsVariation g)))) ∧
    (s.currentMode ≠ VITALS_MODE →
      (transmitData f s r g).txpacket =
        snprintf BUFFER_SIZE ("EMERGENCY:" ++ emergencyMsg s.currentMode) ∧
      (transmitData f s r g).lastTransmittedHR = s.lastTransmittedHR ∧
      (transmitData f s r g).lastRiskRating = s.lastRiskRating ∧
      (transmitData f s r g).lastTransmittedLat = s.lastTransmittedLat ∧
      (transmitData f s r g).lastTransmittedLon = s.lastTransmittedLon) ∧
    (transmitData f s r g).radio =
      s.radio ++ [RadioOp.beginPacket, RadioOp.print (transmitData f s r g).txpacket,
        RadioOp.endPacket] := by
  refine ⟨?_, ?_, transmitData_radio f s r g ht⟩
  · intro hm
    rw [transmitData_vitals f s r g ht hm]
    exact ⟨rfl, rfl, rfl, rfl, rfl⟩
  · intro hm
    rw [transmitData_emergency f s r g ht hm]
    exact ⟨rfl, rfl, rfl, rfl, rfl⟩

/-- C7, amended, at the state after `setup`: the Vitals transmission with
jitter 3 stores heart rate 75. -/
theorem transmitData_record_witness :
    (transmitData (fun hr => hr - 70) setup 3 10).lastTransmittedHR =
      setup.vitalData.heartRate + 3 :=
  ((transmitData_record (fun hr => hr - 70) setup 3 10 rfl).1 rfl).1

/-- C3, amended: in Vitals mode, with the baseline `72`, `40.7128`, `-74.0060`
held in `vitalData`, no jitter and a risk rating of 0, the payload is exactly
`VITALS:HR:72,RISK:0,GPS:40.712799,-74.005997`: the coordinates are the
`float` values nearest to the decimal baseline, `10672616 / 2 ^ 18` and
`-9700114 / 2 ^ 17`, printed with 6 fractional digits. -/
theorem vitals_reference_payload (f : Int → Int) (s : Device) (ht : s.transmitting = false)
    (hm : s.currentMode = VITALS_MODE) (hv : s.vitalData = vitalDataInit) (hf : f 72 = 0) :
    (transmitData f s 0 0).txpacket = "VITALS:HR:72,RISK:0,GPS:40.712799,-74.005997" ∧
    (transmitData f s 0 0).lastTransmittedHR = 72 ∧
    (transmitData f s 0 0).lastRiskRating = 0 ∧
    (transmitData f s 0 0).lastTransmittedLat = ⟨10672616, 18⟩ ∧
    (transmitData f s 0 0).lastTransmittedLon = ⟨-9700114, 17⟩ ∧
    toFloat (doubleLit 407128 10000) = ⟨10672616, 18⟩ ∧
    toFloat (doubleLit (-740060) 10000) = ⟨-9700114, 17⟩ ∧
    formatVitals 72 0 ⟨10672616, 18⟩ ⟨-9700114, 17⟩ =
      "VITALS:HR:72,RISK:0,GPS:40.712799,-74.005997" := by
  have hhr : vitalDataInit.heartRate + 0 = 72 := by decide
  have hlat : addFloat vitalDataInit.latitude (gpsVariation 0) = ⟨10672616, 18⟩ := by decide
  have hlon : addFloat vitalDataInit.longitude (gpsVariation 0) = ⟨-9700114, 17⟩ := by decide
  have htxt : snprintf BUFFER_SIZE (formatVitals 72 0 ⟨10672616, 18⟩ ⟨-9700114, 17⟩) =
      "VITALS:HR:72,RISK:0,GPS:40.712799,-74.005997" := by decide
  rw [transmitData_vitals f s 0 0 ht hm, hv]
  simp only [hhr, hf, hlat, hlon, htxt, true_and]
  exact ⟨by decide, by decide, by decide⟩

/-- C3, amended, at the state after `setup` with a risk function that is 0. -/
theorem vitals_reference_payload_witness :
    (transmitData (fun _ => 0) setup 0 0).txpacket =
      "VITALS:HR:72,RISK:0,GPS:40.712799,-74.005997" :=
  (vitals_reference_payload (fun _ => 0) setup rfl rfl rfl rfl).1

theorem abs_toRat_sub_le (x : Dyadic) (cn : Int) (cd tn td : Nat) (hcd : 0 < cd) (htd : 0 < td)
    (h : |x.num * (cd : Int) - cn * 2 ^ x.scale| * (td : Int) ≤ (tn : Int) * (2 ^ x.scale * cd)) :
    |x.toRat - (cn : ℚ) / (cd : ℚ)| ≤ (tn : ℚ) / (td : ℚ) := by
  have hcd1 : (0 : ℚ) < (cd : ℚ) := by exact_mod_cast hcd
  have htd1 : (0 : ℚ) < (td : ℚ) := by exact_mod_cast htd
  have hp : (0 : ℚ) < 2 ^ x.scale := by positivity
  have hq : |(x.num : ℚ) * (cd : ℚ) - (cn : ℚ) * 2 ^ x.scale| * (td : ℚ) ≤
      (tn : ℚ) * (2 ^ x.scale * (cd : ℚ)) := by exact_mod_cast h
  have e : x.toRat - (cn : ℚ) / (cd : ℚ) =
      ((x.num : ℚ) * (cd : ℚ) - (cn : ℚ) * 2 ^ x.scale) / (2 ^ x.scale * (cd : ℚ)) := by
    unfold Dyadic.toRat
    field_simp
    ring
  rw [e, abs_div, abs_of_pos (mul_pos hp hcd1), div_le_div_iff₀ (mul_pos hp hcd1) htd1]
  exact hq

set_option maxRecDepth 8000 in
theorem jitter_table (g : Int) (h1 : -10 ≤ g) (h2 : g < 11) :
    (|(addFloat vitalDataInit.latitude (gpsVariation g)).num * ((2 ^ 18 : Nat) : Int) -
        10672616 * 2 ^ (addFloat vitalDataInit.latitude (gpsVariation g)).scale| *
          ((1000 : Nat) : Int) ≤
      ((1 : Nat) : Int) *
        (2 ^ (addFloat vitalDataInit.latitude (gpsVariation g)).scale * ((2 ^ 18 : Nat) : Int))) ∧
    (|(addFloat vitalDataInit.longitude (gpsVariation g)).num * ((2 ^ 17 : Nat) : Int) -
        (-9700114) * 2 ^ (addFloat vitalDataInit.longitude (gpsVariation g)).scale| *
          ((1000 : Nat) : Int) ≤
      ((1 : Nat) : Int) *
        (2 ^ (addFloat vitalDataInit.longitude (gpsVariation g)).scale * ((2 ^ 17 : Nat) : Int))) := by
  interval_cases g <;> decide

/-- C9 as stated fails. With `random(-10, 11)` returning 10 the transmitted
longitude is the `float` `-9699983 / 2 ^ 17`, printed `-74.004997`, which is
more than 0.0010 from `-74.0060`; with -10 the latitude `10672354 / 2 ^ 18` is
more than 0.0010 from `40.7128`. -/
theorem jitter_bounds_counterexample :
    ((-3 : Int) ≤ 0 ∧ (0 : Int) < 4) ∧
    ((-10 : Int) ≤ 10 ∧ (10 : Int) < 11) ∧
    ((-10 : Int) ≤ -10 ∧ (-10 : Int) < 11) ∧
    (transmitData (fun _ => 0) setup 0 10).txpacket =
      "VITALS:HR:72,RISK:0,GPS:40.713799,-74.004997" ∧
    ¬ (|(transmitData (fun _ => 0) setup 0 10).lastTransmittedLon.toRat - (-74.0060)| ≤ 0.0010) ∧
    ¬ (|(transmitData (fun _ => 0) setup 0 (-10)).lastTransmittedLat.toRat - 40.7128| ≤
      0.0010) := by
  have hlon : (transmitData (fun _ => 0) setup 0 10).lastTransmittedLon = ⟨-9699983, 17⟩ := by
    decide
  have hlat : (transmitData (fun _ => 0) setup 0 (-10)).lastTransmittedLat = ⟨10672354, 18⟩ := by
    decide
  refine ⟨by decide, by decide, by decide, by decide, ?_, ?_⟩
  · rw [hlon]
    norm_num [Dyadic.toRat, abs_le]
  · rw [hlat]
    norm_num [Dyadic.toRat, abs_le]

/-- C9, amended: for every `r` with `-3 <= r < 4` and every `g` with
`-10 <= g < 11`, the heart rate transmitted in Vitals mode lies in
`[72 - 3, 72 + 3]` and each transmitted coordinate lies within 0.0010 degrees
of its baseline as held in the `float` field of `vitalData`
(`10672616 / 2 ^ 18 = 40.712799072265625` for latitude and
`-9700114 / 2 ^ 17 = -74.00599670410156` for longitude); `vitalData` itself
is not modified, so jitter does not accumulate. -/
theorem jitter_bounds (f : Int → Int) (s : Device) (r g : Int) (ht : s.transmitting = false)
    (hm : s.currentMode = VITALS_MODE) (hv : s.vitalData = vitalDataInit)
    (hr1 : -3 ≤ r) (hr2 : r < 4) (hg1 : -10 ≤ g) (hg2 : g < 11) :
    72 - 3 ≤ (transmitData f s r g).lastTransmittedHR ∧
    (transmitData f s r g).lastTransmittedHR ≤ 72 + 3 ∧
    |(transmitData f s r g).lastTransmittedLat.toRat - s.vitalData.latitude.toRat| ≤ 0.0010 ∧
    |(transmitData f s r g).lastTransmittedLon.toRat - s.vitalData.longitude.toRat| ≤ 0.0010 ∧
    s.vitalData.latitude.toRat = 10672616 / 2 ^ 18 ∧
    s.vitalData.longitude.toRat = -9700114 / 2 ^ 17 ∧
    (transmitData f s r g).vitalData = s.vitalData := by
  have hhr : vitalDataInit.heartRate = 72 := rfl
  have hlat : vitalDataInit.latitude = ⟨10672616, 18⟩ := by decide
  have hlon : vitalDataInit.longitude = ⟨-9700114, 17⟩ := by decide
  have blat : vitalDataInit.latitude.toRat = 10672616 / 2 ^ 18 := by
    rw [hlat]
    norm_num [Dyadic.toRat]
  have blon : vitalDataInit.longitude.toRat = -9700114 / 2 ^ 17 := by
    rw [hlon]
    norm_num [Dyadic.toRat]
  have tlat := abs_toRat_sub_le (addFloat vitalDataInit.latitude (gpsVariation g)) 10672616
    (2 ^ 18) 1 1000 (by norm_num) (by norm_num) (jitter_table g hg1 hg2).1
  have tlon := abs_toRat_sub_le (addFloat vitalDataInit.longitude (gpsVariation g)) (-9700114)
    (2 ^ 17) 1 1000 (by norm_num) (by norm_num) (jitter_table g hg1 hg2).2
  refine ⟨?_, ?_, ?_, ?_, ?_, ?_, transmitData_vitalData f s r g⟩
  · rw [transmitData_vitals f s r g ht hm, hv]
    show 72 - 3 ≤ vitalDataInit.heartRate + r
    omega
  · rw [transmitData_vitals f s r g ht hm, hv]
    show vitalDataInit.heartRate + r ≤ 72 + 3
    omega
  · rw [transmitData_vitals f s r g ht hm, hv, blat]
    show |(addFloat vitalDataInit.latitude (gpsVariation g)).toRat - 10672616 / 2 ^ 18| ≤ 0.0010
    norm_num at tlat ⊢
    exact tlat
  · rw [transmitData_vitals f s r g ht hm, hv, blon]
    show |(addFloat vitalDataInit.longitude (gpsVariation g)).toRat - -9700114 / 2 ^ 17| ≤ 0.0010
    norm_num at tlon ⊢
    exact tlon
  · rw [hv]
    exact blat
  · rw [hv]
    exact blon

/-- C9, amended, at the state after `setup` with the extreme draws 3 and 10. -/
theorem jitter_bounds_witness :
    (transmitData (fun _ => 0) setup 3 10).lastTransmittedHR ≤ 72 + 3 ∧
    |(transmitData (fun _ => 0) setup 3 10).lastTransmittedLon.toRat -
      setup.vitalData.longitude.toRat| ≤ 0.0010 :=
  ⟨(jitter_bounds (fun _ => 0) setup 3 10 rfl rfl rfl (by decide) (by decide) (by decide)
      (by decide)).2.1,
    (jitter_bounds (fun _ => 0) setup 3 10 rfl rfl rfl (by decide) (by decide) (by decide)
      (by decide)).2.2.2.1⟩

theorem divRoundEven_le (a d : Nat) : divRoundEven a d ≤ a / d + 1 := by
  unfold divRoundEven
  simp only
  split_ifs <;> omega

theorem fracDigits_length (k n : Nat) : (fracDigits k n).length = k := by
  induction k generalizing n with
  | zero => rfl
  | succ k ih => simp [fracDigits, ih]

theorem formatInt_length (n : Int) (e : Nat) (he : 0 < e) (h : n.natAbs < 10 ^ e) :
    (formatInt n).length ≤ e + 1 := by
  have hr := Nat.repr_length n.natAbs e he h
  unfold formatInt
  split_ifs
  · rw [String.length_append]
    have : ("-" : String).length = 1 := rfl
    omega
  · omega

theorem formatFixed_length (x : Dyadic) (h : x.num.natAbs < 99 * 2 ^ x.scale) :
    (formatFixed 6 x).length ≤ 10 := by
  have hd := divRoundEven_le (x.num.natAbs * 10 ^ 6) (2 ^ x.scale)
  have hpos : 0 < 2 ^ x.scale := by positivity
  have hq : x.num.natAbs * 10 ^ 6 / 2 ^ x.scale < 99 * 10 ^ 6 := by
    rw [Nat.div_lt_iff_lt_mul hpos]
    nlinarith
  have hs : divRoundEven (x.num.natAbs * 10 ^ 6) (2 ^ x.scale) / 10 ^ 6 < 10 ^ 2 := by
    rw [Nat.div_lt_iff_lt_mul (by norm_num)]
    omega
  have hr := Nat.repr_length _ 2 (by norm_num) hs
  unfold formatFixed
  simp only [String.length_append]
  have hf : (String.mk (fracDigits 6
      (divRoundEven (x.num.natAbs * 10 ^ 6) (2 ^ x.scale) % 10 ^ 6))).length = 6 :=
    fracDigits_length 6 _
  have hdot : (".": String).length = 1 := rfl
  have hsign : (if x.num < 0 then "-" else "" : String).length ≤ 1 := by
    split_ifs
    · exact le_of_eq rfl
    · exact Nat.zero_le 1
  omega

theorem natAbs_lt_of_abs_toRat_lt (x : Dyadic) (h : |x.toRat| < 99) :
    x.num.natAbs < 99 * 2 ^ x.scale := by
  have hp : (0 : ℚ) < 2 ^ x.scale := by positivity
  unfold Dyadic.toRat at h
  rw [abs_div, abs_of_pos hp, div_lt_iff₀ hp] at h
  have h2 : |x.num| < 99 * 2 ^ x.scale := by exact_mod_cast h
  have h3 : ((x.num.natAbs : Nat) : Int) < ((99 * 2 ^ x.scale : Nat) : Int) := by
    rw [Int.natCast_natAbs]
    push_cast
    exact h2
  exact_mod_cast h3

theorem snprintf_of_length_le (text : String) (h : text.length ≤ 127) :
    snprintf BUFFER_SIZE text = text := by
  unfold snprintf
  rw [List.take_of_length_le]
  exact h

theorem formatVitals_length (hr risk : Int) (lat lon : Dyadic) (h1 : hr.natAbs < 10 ^ 2)
    (h2 : risk.natAbs < 10 ^ 10) (h3 : |lat.toRat| < 99) (h4 : |lon.toRat| < 99) :
    (formatVitals hr risk lat lon).length ≤ 56 := by
  have l1 : (formatInt hr).length ≤ 2 + 1 := formatInt_length hr 2 (by norm_num) h1
  have l2 : (formatInt risk).length ≤ 10 + 1 := formatInt_length risk 10 (by norm_num) h2
  have l3 : (formatFixed 6 lat).length ≤ 10 :=
    formatFixed_length lat (natAbs_lt_of_abs_toRat_lt lat h3)
  have l4 : (formatFixed 6 lon).length ≤ 10 :=
    formatFixed_length lon (natAbs_lt_of_abs_toRat_lt lon h4)
  have c1 : ("VITALS:HR:" : String).length = 10 := by decide
  have c2 : (",RISK:" : String).length = 6 := by decide
  have c3 : (",GPS:" : String).length = 5 := by decide
  have c4 : ("," : String).length = 1 := by decide
  simp only [formatVitals, String.length_append]
  omega

theorem emergency_text_length (m : EmergencyType) :
    ("EMERGENCY:" ++ emergencyMsg m).length ≤ 23 := by
  cases m <;> decide

/-- On the code path itself `snprintf` never cuts the payload: with the
baseline of `setup`, draws in the ranges of the two `random` calls and a risk
function with 32-bit signed results, `txpacket` is the whole rendered text. -/
theorem transmitData_payload_whole (f : Int → Int) (s : Device) (r g : Int)
    (ht : s.transmitting = false) (hv : s.vitalData = vitalDataInit)
    (hr1 : -3 ≤ r) (hr2 : r < 4) (hg1 : -10 ≤ g) (hg2 : g < 11)
    (hf : ∀ n, -2 ^ 31 ≤ f n ∧ f n < 2 ^ 31) :
    (s.currentMode = VITALS_MODE →
      (transmitData f s r g).txpacket =
        formatVitals (72 + r) (f (72 + r)) (addFloat vitalDataInit.latitude (gpsVariation g))
          (addFloat vitalDataInit.longitude (gpsVariation g))) ∧
    (s.currentMode ≠ VITALS_MODE →
      (transmitData f s r g).txpacket = "EMERGENCY:" ++ emergencyMsg s.currentMode) := by
  constructor
  · intro hm
    have tlat := abs_toRat_sub_le (addFloat vitalDataInit.latitude (gpsVariation g)) 10672616
      (2 ^ 18) 1 1000 (by norm_num) (by norm_num) (jitter_table g hg1 hg2).1
    have tlon := abs_toRat_sub_le (addFloat vitalDataInit.longitude (gpsVariation g)) (-9700114)
      (2 ^ 17) 1 1000 (by norm_num) (by norm_num) (jitter_table g hg1 hg2).2
    have hlat : |(addFloat vitalDataInit.latitude (gpsVariation g)).toRat| < 99 := by
      rw [abs_le] at tlat
      rw [abs_lt]
      norm_num at tlat
      constructor <;> linarith [tlat.1, tlat.2]
    have hlon : |(addFloat vitalDataInit.longitude (gpsVariation g)).toRat| < 99 := by
      rw [abs_le] at tlon
      rw [abs_lt]
      norm_num at tlon
      constructor <;> linarith [tlon.1, tlon.2]
    have hlen := formatVitals_length (72 + r) (f (72 + r)) _ _ (by omega)
      (by have := hf (72 + r); omega) hlat hlon
    rw [transmitData_vitals f s r g ht hm, hv]
    exact snprintf_of_length_le
      (formatVitals (72 + r) (f (72 + r)) (addFloat vitalDataInit.latitude (gpsVariation g))
        (addFloat vitalDataInit.longitude (gpsVariation g))) (by omega)
  · intro hm
    rw [transmitData_emergency f s r g ht hm]
    exact snprintf_of_length_le _ (by have := emergency_text_length s.currentMode; omega)

/-- C8: for every input in the defined ranges, heart rate in `[69, 75]`, any
32-bit signed risk rating, latitude within 0.0010 of 40.7128 and longitude
within 0.0010 of -74.0060, and for every mode, the rendered payload has at
most 127 characters, so `snprintf` with the 128-byte buffer keeps it whole. -/
theorem payload_fits_buffer (m : EmergencyType) (hr risk : Int) (lat lon : Dyadic)
    (hhr1 : 69 ≤ hr) (hhr2 : hr ≤ 75) (hrisk1 : -2 ^ 31 ≤ risk) (hrisk2 : risk < 2 ^ 31)
    (hlat : |lat.toRat - 40.7128| ≤ 0.0010) (hlon : |lon.toRat - (-74.0060)| ≤ 0.0010) :
    (if m = VITALS_MODE then formatVitals hr risk lat lon
      else "EMERGENCY:" ++ emergencyMsg m).length ≤ 127 ∧
    snprintf BUFFER_SIZE (if m = VITALS_MODE then formatVitals hr risk lat lon
      else "EMERGENCY:" ++ emergencyMsg m) =
      (if m = VITALS_MODE then formatVitals hr risk lat lon
        else "EMERGENCY:" ++ emergencyMsg m) := by
  have h3 : |lat.toRat| < 99 := by
    rw [abs_le] at hlat
    rw [abs_lt]
    constructor <;> linarith [hlat.1, hlat.2]
  have h4 : |lon.toRat| < 99 := by
    rw [abs_le] at hlon
    rw [abs_lt]
    constructor <;> linarith [hlon.1, hlon.2]
  have hv := formatVitals_length hr risk lat lon (by omega) (by omega) h3 h4
  have he := emergency_text_length m
  have hlen : (if m = VITALS_MODE then formatVitals hr risk lat lon
      else "EMERGENCY:" ++ emergencyMsg m).length ≤ 127 := by
    split_ifs <;> omega
  exact ⟨hlen, snprintf_of_length_le _ hlen⟩

/-- C8, at heart rate 72, risk 0 and the two baseline coordinates as held in
`float` variables. -/
theorem payload_fits_buffer_witness :
    (if VITALS_MODE = VITALS_MODE then formatVitals 72 0 ⟨10672616, 18⟩ ⟨-9700114, 17⟩
      else "EMERGENCY:" ++ emergencyMsg VITALS_MODE).length ≤ 127 :=
  (payload_fits_buffer VITALS_MODE 72 0 ⟨10672616, 18⟩ ⟨-9700114, 17⟩ (by decide) (by decide)
    (by decide) (by decide) (by norm_num [Dyadic.toRat, abs_le])
    (by norm_num [Dyadic.toRat, abs_le])).1

end Wearable
